import Mathlib

namespace PartitaIVA

/-- ASCII decimal digit test, modelling Python `str.isdigit` and the regex
class `\d` on the characters this codec accepts. -/
def isDigitChar (c : Char) : Bool := decide (48 ≤ c.toNat ∧ c.toNat ≤ 57)

/-- Numeric value of an ASCII digit character, modelling Python `int(digit)`. -/
def digitVal (c : Char) : Nat := c.toNat - 48

/-- Whitespace test, modelling the Python regex class `\s` on ASCII input:
space, tab, newline, carriage return, vertical tab, form feed. -/
def pyIsSpace (c : Char) : Bool :=
  decide (c.toNat = 32 ∨ c.toNat = 9 ∨ c.toNat = 10 ∨ c.toNat = 13 ∨ c.toNat = 11 ∨ c.toNat = 12)

/-- Uppercasing of one character, modelling Python `str.upper` on ASCII. -/
def pyToUpper (c : Char) : Char :=
  if 97 ≤ c.toNat ∧ c.toNat ≤ 122 then Char.ofNat (c.toNat - 32) else c

/-- Normalization as in partitaiva.py: uppercase every character, then
delete every whitespace character (the re.sub of the source). -/
def normalize (s : String) : String :=
  ⟨(s.data.map pyToUpper).filter (fun c => !pyIsSpace c)⟩

/-- The loop of `_calculate_check_digit`: walk the characters with their
0-based index `i`, accumulating `odd_sum` (even `i`, odd 1-based position)
and `even_sum` (odd `i`), failing on the first non-digit character.
Returns `odd_sum + even_sum`. -/
def checksumAux : List Char → Nat → Nat → Nat → Except String Nat
  | [], _, oddSum, evenSum => .ok (oddSum + evenSum)
  | c :: rest, i, oddSum, evenSum =>
    if !isDigitChar c then .error "VAT number must contain only digits"
    else
      let d := digitVal c
      if i % 2 = 0 then checksumAux rest (i + 1) (oddSum + d) evenSum
      else
        let doubled := d * 2
        checksumAux rest (i + 1) oddSum (evenSum + if doubled < 10 then doubled else doubled - 9)

/-- Check digit of a 10-digit base number, or a `ValueError` message:
function `_calculate_check_digit` from partitaiva.py. -/
def _calculate_check_digit (vat_number : String) : Except String Char :=
  if vat_number.length ≠ 10 then
    .error "VAT number must be 10 digits long (excluding check digit)"
  else
    match checksumAux vat_number.data 0 0 0 with
    | .error e => .error e
    | .ok total => .ok (Char.ofNat (48 + (10 - total % 10) % 10))

/-- The full-string test of the source regex for exactly 11 decimal
digits, as a Bool. -/
def shape11 (s : String) : Bool := s.length == 11 && s.data.all isDigitChar

/-- The full-string test of the source regex for exactly 10 decimal
digits, as a Bool, including the Python behavior that the end anchor also
matches just before a single newline that ends the string: ten digits, or
ten digits followed by one final newline character. -/
def shape10 (s : String) : Bool :=
  (s.length == 10 && s.data.all isDigitChar) ||
  (s.length == 11 && (s.data.take 10).all isDigitChar && s.data.getD 10 ' ' == '\n')

/-- The part of `is_valid` that runs after normalization: shape check, split
into base and supplied check digit, comparison with the computed check digit,
with the `except ValueError` fallback to `False`. -/
def validCore (p : String) : Bool :=
  if shape11 p then
    let base : String := ⟨p.data.take 10⟩
    let provided := p.data.getD 10 ' '
    match _calculate_check_digit base with
    | .ok expected => provided == expected
    | .error _ => false
  else false

/-- Validation of a VAT number: function `is_valid` from partitaiva.py. -/
def is_valid (partita_iva : String) : Bool :=
  if partita_iva.data.isEmpty then false
  else validCore (normalize partita_iva)

/-- Completion of a base number with its check digit, or a `ValueError`
message when the base fails the 10-digit test: function `encode` from
partitaiva.py. -/
def encode (base_number : String) : Except String String :=
  if !shape10 base_number then .error "Base number must be exactly 10 digits"
  else
    match _calculate_check_digit base_number with
    | .error e => .error e
    | .ok cd => .ok (base_number.push cd)

/-- The result dictionary of `decode`. -/
structure DecodeResult where
  code : String
  valid : Bool
  base_number : Option String
  check_digit : Option Char
  calculated_check_digit : Option Char

/-- Decomposition of a VAT number: function `decode` from partitaiva.py. -/
def decode (partita_iva : String) : DecodeResult :=
  let cleaned := if partita_iva.data.isEmpty then "" else normalize partita_iva
  let result : DecodeResult :=
    { code := partita_iva, valid := false, base_number := none,
      check_digit := none, calculated_check_digit := none }
  if cleaned.data.isEmpty || !shape11 cleaned then result
  else
    let base : String := ⟨cleaned.data.take 10⟩
    let cd := cleaned.data.getD 10 ' '
    match _calculate_check_digit base with
    | .ok calcd =>
      { result with
        base_number := some base
        check_digit := some cd
        calculated_check_digit := some calcd
        valid := cd == calcd }
    | .error _ =>
      { result with
        base_number := some base
        check_digit := some cd }

/-- Luhn doubling as the claims word it: double the digit, subtract 9 when
the doubled value is at least 10. -/
def luhnDouble (d : Nat) : Nat := if 10 ≤ 2 * d then 2 * d - 9 else 2 * d

/-- Sum of the digit values at odd 1-based positions. -/
def oddSumSpec : List Nat → Nat
  | [] => 0
  | [d] => d
  | d :: _ :: rest => d + oddSumSpec rest

/-- Sum of the Luhn-doubled digit values at even 1-based positions. -/
def evenSumSpec : List Nat → Nat
  | [] => 0
  | [_] => 0
  | _ :: d :: rest => luhnDouble d + evenSumSpec rest

/-- Removal of every whitespace character from a string. -/
def stripWS (s : String) : String := ⟨s.data.filter (fun c => !pyIsSpace c)⟩

/-- Two-at-a-time structural induction on lists. -/
def twoStepInd {α : Type} {P : List α → Prop} (h0 : P []) (h1 : ∀ a, P [a])
    (h2 : ∀ a b l, P l → P (a :: b :: l)) : (l : List α) → P l
  | [] => h0
  | [a] => h1 a
  | a :: b :: l => h2 a b l (twoStepInd h0 h1 h2 l)

theorem luhnDouble_eq (d : Nat) :
    (if d * 2 < 10 then d * 2 else d * 2 - 9) = luhnDouble d := by
  unfold luhnDouble
  split <;> split <;> omega

theorem checksumAux_eq (cs : List Char) :
    ∀ i o e : Nat, i % 2 = 0 → (∀ c ∈ cs, isDigitChar c = true) →
    checksumAux cs i o e =
      Except.ok (o + oddSumSpec (cs.map digitVal) + (e + evenSumSpec (cs.map digitVal))) := by
  induction cs using twoStepInd with
  | h0 =>
    intro i o e _ _
    simp [checksumAux, oddSumSpec, evenSumSpec]
  | h1 a =>
    intro i o e hi ha
    have hd : isDigitChar a = true := ha a (by simp)
    simp [checksumAux, hd, hi, oddSumSpec, evenSumSpec]
  | h2 a b l ih =>
    intro i o e hi hall
    have hda : isDigitChar a = true := hall a (by simp)
    have hdb : isDigitChar b = true := hall b (by simp)
    have hrest : ∀ c ∈ l, isDigitChar c = true := fun c hc => hall c (by simp [hc])
    have hodd : ¬ (i + 1) % 2 = 0 := by omega
    simp only [checksumAux, hda, hdb, Bool.not_true, Bool.false_eq_true, if_false,
      if_pos hi, if_neg hodd]
    rw [ih]
    · simp only [List.map_cons, oddSumSpec, evenSumSpec, Except.ok.injEq]
      rw [luhnDouble_eq]
      omega
    · omega
    · exact hrest

theorem calculate_check_digit_eq (s : String) (h10 : s.length = 10)
    (hd : ∀ c ∈ s.data, isDigitChar c = true) :
    _calculate_check_digit s =
      Except.ok (Char.ofNat (48 +
        (10 - (oddSumSpec (s.data.map digitVal) + evenSumSpec (s.data.map digitVal)) % 10) % 10)) := by
  unfold _calculate_check_digit
  rw [if_neg (by simp [h10])]
  rw [checksumAux_eq s.data 0 0 0 (by omega) hd]
  simp

theorem toNat_ofNat_valid (n : Nat) (h : n.isValidChar) : (Char.ofNat n).toNat = n := by
  simp [Char.ofNat, h, Char.ofNatAux, Char.toNat, UInt32.toNat, BitVec.toNat_ofNatLt]

theorem checkChar_isDigit (k : Nat) (hk : k < 10) :
    isDigitChar (Char.ofNat (48 + k)) = true := by
  have h : (Char.ofNat (48 + k)).toNat = 48 + k := toNat_ofNat_valid _ (Or.inl (by omega))
  simp [isDigitChar, h]
  omega

theorem calc_isOk (s : String) (h10 : s.length = 10)
    (hd : ∀ c ∈ s.data, isDigitChar c = true) :
    ∃ cd, _calculate_check_digit s = Except.ok cd ∧ isDigitChar cd = true := by
  rw [calculate_check_digit_eq s h10 hd]
  exact ⟨_, rfl, checkChar_isDigit _ (by omega)⟩

/-- C1: for a 10-digit base string, `_calculate_check_digit` returns the
digit character given by `(10 - ((oddSum + evenSum) mod 10)) mod 10`, where
`oddSum` sums the digits at odd 1-based positions and `evenSum` sums the
Luhn-doubled digits at even 1-based positions. -/
theorem C1_check_digit_formula (s : String) (h10 : s.length = 10)
    (hd : ∀ c ∈ s.data, isDigitChar c = true) :
    _calculate_check_digit s =
      Except.ok (Char.ofNat (48 +
        (10 - (oddSumSpec (s.data.map digitVal) + evenSumSpec (s.data.map digitVal)) % 10) % 10)) :=
  calculate_check_digit_eq s h10 hd

/-- Witness for C1 at the concrete base "0123456789". -/
theorem C1_check_digit_formula_witness :
    _calculate_check_digit "0123456789" =
      Except.ok (Char.ofNat (48 +
        (10 - (oddSumSpec ((String.data "0123456789").map digitVal) +
               evenSumSpec ((String.data "0123456789").map digitVal)) % 10) % 10)) :=
  C1_check_digit_formula "0123456789" (by decide) (by decide)

theorem pyToUpper_digit (c : Char) (h : isDigitChar c = true) : pyToUpper c = c := by
  simp [isDigitChar] at h
  unfold pyToUpper
  rw [if_neg (by omega)]

theorem pyIsSpace_digit (c : Char) (h : isDigitChar c = true) : pyIsSpace c = false := by
  simp [isDigitChar] at h
  simp [pyIsSpace]
  omega

theorem normalize_digits (s : String) (hd : ∀ c ∈ s.data, isDigitChar c = true) :
    normalize s = s := by
  unfold normalize
  have hmap : s.data.map pyToUpper = s.data := by
    rw [List.map_congr_left (fun c hc => pyToUpper_digit c (hd c hc))]
    simp
  rw [hmap, List.filter_eq_self.mpr (fun c hc => by simp [pyIsSpace_digit c (hd c hc)])]

theorem data_isEmpty_false (s : String) (h : s.data ≠ []) : s.data.isEmpty = false := by
  cases hs : s.data with
  | nil => exact absurd hs h
  | cons a t => rfl

theorem shape11_of (s : String) (h11 : s.length = 11)
    (hd : ∀ c ∈ s.data, isDigitChar c = true) : shape11 s = true := by
  simp [shape11, h11, List.all_eq_true]
  exact hd

/-- C2: for a complete 11-digit VAT string, `is_valid` returns true exactly
when the 11th character equals the check digit computed over the first
10 characters. -/
theorem C2_valid_iff_check (s : String) (h11 : s.length = 11)
    (hd : ∀ c ∈ s.data, isDigitChar c = true) :
    is_valid s = true ↔
      _calculate_check_digit ⟨s.data.take 10⟩ = Except.ok (s.data.getD 10 ' ') := by
  have hlen : s.data.length = 11 := h11
  have hne : s.data.isEmpty = false := data_isEmpty_false s (by intro h; rw [h] at hlen; simp at hlen)
  have hbase10 : (String.mk (s.data.take 10)).length = 10 := by
    show (s.data.take 10).length = 10
    rw [List.length_take]
    omega
  obtain ⟨cd, hcd, _⟩ := calc_isOk ⟨s.data.take 10⟩ hbase10
    (fun c hc => hd c (List.take_subset _ _ hc))
  unfold is_valid
  rw [if_neg (by simp [hne])]
  rw [normalize_digits s hd]
  unfold validCore
  rw [if_pos (shape11_of s h11 hd)]
  simp only [hcd, beq_iff_eq, Except.ok.injEq]
  exact ⟨fun h => h.symm, fun h => h.symm⟩

/-- Witness for C2 at the concrete VAT number "01234567897". -/
theorem C2_valid_iff_check_witness :
    is_valid "01234567897" = true ↔
      _calculate_check_digit ⟨(String.data "01234567897").take 10⟩ =
        Except.ok ((String.data "01234567897").getD 10 ' ') :=
  C2_valid_iff_check "01234567897" (by decide) (by decide)

theorem shape10_of (s : String) (h10 : s.length = 10)
    (hd : ∀ c ∈ s.data, isDigitChar c = true) : shape10 s = true := by
  simp [shape10, h10, List.all_eq_true]
  exact hd

/-- C3: encoding a 10-digit base number and decoding the result yields a
record whose `base_number` is the base and whose `valid` flag is true. -/
theorem C3_roundtrip (B : String) (h10 : B.length = 10)
    (hd : ∀ c ∈ B.data, isDigitChar c = true) :
    ∃ V, encode B = Except.ok V ∧
      (decode V).base_number = some B ∧ (decode V).valid = true := by
  have hlenB : B.data.length = 10 := h10
  obtain ⟨cd, hcd, hcdd⟩ := calc_isOk B h10 hd
  have hshape10 : shape10 B = true := shape10_of B h10 hd
  refine ⟨B.push cd, ?_, ?_, ?_⟩
  · unfold encode
    rw [if_neg (by simp [hshape10]), hcd]
  all_goals {
    have hV : (B.push cd).data = B.data ++ [cd] := rfl
    have hVdig : ∀ c ∈ (B.push cd).data, isDigitChar c = true := by
      rw [hV]
      intro c hc
      rcases List.mem_append.mp hc with h | h
      · exact hd c h
      · simp at h
        subst h
        exact hcdd
    have hVlen : (B.push cd).length = 11 := by
      show (B.push cd).data.length = 11
      rw [hV]
      simp [hlenB]
    have hVne : (B.push cd).data.isEmpty = false :=
      data_isEmpty_false _ (by rw [hV]; simp)
    have hnormV : normalize (B.push cd) = B.push cd := normalize_digits _ hVdig
    have hshapeV : shape11 (B.push cd) = true := shape11_of _ hVlen hVdig
    have htake : (B.push cd).data.take 10 = B.data := by
      rw [hV, ← hlenB, List.take_left]
    have hbase : (⟨(B.push cd).data.take 10⟩ : String) = B := by rw [htake]
    have hgetD : (B.push cd).data.getD 10 ' ' = cd := by
      rw [hV, ← hlenB]
      simp [List.getD]
    have htake2 : List.take 10 (B.data ++ [cd]) = B.data := by
      rw [← hlenB, List.take_left]
    have hbase2 : (⟨List.take 10 (B.data ++ [cd])⟩ : String) = B := by rw [htake2]
    have hgetD2 : (B.data ++ [cd]).getD 10 ' ' = cd := by
      rw [← hlenB]
      simp [List.getD]
    have hget3 : (B.data ++ [cd])[(10 : Nat)]?.getD ' ' = cd := by
      rw [← hlenB]
      simp
    simp [decode, hVne, hnormV, hshapeV, hbase, hgetD, hbase2, hgetD2, hget3, hcd]
  }

/-- Witness for C3 at the concrete base "0123456789". -/
theorem C3_roundtrip_witness :
    ∃ V, encode "0123456789" = Except.ok V ∧
      (decode V).base_number = some "0123456789" ∧ (decode V).valid = true :=
  C3_roundtrip "0123456789" (by decide) (by decide)

/-- C4: the four concrete test vectors for the check digit and encoder. -/
theorem C4_vectors :
    _calculate_check_digit "0123456789" = Except.ok '7' ∧
    encode "0123456789" = Except.ok "01234567897" ∧
    _calculate_check_digit "1234567890" = Except.ok '3' ∧
    encode "1234567890" = Except.ok "12345678903" := by
  refine ⟨?_, ?_, ?_, ?_⟩ <;> rfl

theorem normalize_nil (s : String) (h : s.data = []) : normalize s = "" := by
  unfold normalize
  rw [h]
  rfl

/-- C5: on input whose normalization is not exactly 11 digits, decode
returns the record with every component null, `valid` false, and the raw
input preserved in `code`; decode is total, so it never raises. -/
theorem C5_malformed (s : String) (h : shape11 (normalize s) = false) :
    decode s = { code := s, valid := false, base_number := none, check_digit := none, calculated_check_digit := none } := by
  by_cases he : s.data.isEmpty = true
  · simp [decode, he]
  · simp [decode, he, h]

/-- Witness for C5 at the concrete input "abc". -/
theorem C5_malformed_witness :
    decode "abc" = { code := "abc", valid := false, base_number := none, check_digit := none, calculated_check_digit := none } :=
  C5_malformed "abc" (by decide)

theorem checksumAux_error (cs : List Char) :
    ∀ i o e : Nat, ¬ (∀ c ∈ cs, isDigitChar c = true) →
    checksumAux cs i o e = Except.error "VAT number must contain only digits" := by
  induction cs with
  | nil =>
    intro i o e h
    exact absurd (by simp) h
  | cons c rest ih =>
    intro i o e h
    by_cases hc : isDigitChar c = true
    · have hrest : ¬ (∀ x ∈ rest, isDigitChar x = true) := by
        intro hall
        refine h ?_
        intro x hx
        rcases List.mem_cons.mp hx with h1 | h1
        · rw [h1]
          exact hc
        · exact hall x h1
      simp only [checksumAux, hc, Bool.not_true, Bool.false_eq_true, if_false]
      by_cases hi : i % 2 = 0
      · rw [if_pos hi]
        exact ih _ _ _ hrest
      · rw [if_neg hi]
        exact ih _ _ _ hrest
    · have hc' : isDigitChar c = false := by simpa using hc
      simp [checksumAux, hc']

theorem calc_error_length (s : String) (h : s.length ≠ 10) :
    _calculate_check_digit s =
      Except.error "VAT number must be 10 digits long (excluding check digit)" := by
  unfold _calculate_check_digit
  rw [if_pos h]

theorem calc_error_nondigit (s : String) (h10 : s.length = 10)
    (h : ¬ ∀ c ∈ s.data, isDigitChar c = true) :
    _calculate_check_digit s = Except.error "VAT number must contain only digits" := by
  unfold _calculate_check_digit
  rw [if_neg (by simp [h10]), checksumAux_error s.data 0 0 0 h]

theorem encode_error_nomatch (s : String) (h : shape10 s = false) :
    encode s = Except.error "Base number must be exactly 10 digits" := by
  unfold encode
  rw [if_pos (by simp [h])]

theorem encode_error_newline (s : String) (h11 : s.length = 11)
    (hd : ∀ c ∈ s.data.take 10, isDigitChar c = true)
    (hnl : s.data.getD 10 ' ' = '\n') :
    encode s =
      Except.error "VAT number must be 10 digits long (excluding check digit)" := by
  have hs : shape10 s = true := by
    simp [shape10, h11, List.all_eq_true]
    refine ⟨hd, ?_⟩
    have hlt : 10 < s.data.length := by
      have h : s.data.length = 11 := h11
      omega
    rw [← List.getD_eq_getElem s.data ' ' hlt]
    exact hnl
  unfold encode
  rw [if_neg (by simp [hs]), calc_error_length s (by omega)]

theorem encode_ok (s : String) (h10 : s.length = 10)
    (hd : ∀ c ∈ s.data, isDigitChar c = true) :
    ∃ cd, encode s = Except.ok (s.push cd) := by
  obtain ⟨cd, hcd, _⟩ := calc_isOk s h10 hd
  refine ⟨cd, ?_⟩
  unfold encode
  rw [if_neg (by simp [shape10_of s h10 hd]), hcd]

theorem encode_error_iff (s : String) :
    (∃ e, encode s = Except.error e) ↔
      ¬ (s.length = 10 ∧ ∀ c ∈ s.data, isDigitChar c = true) := by
  constructor
  · rintro ⟨e, he⟩ hpre
    obtain ⟨cd, hok⟩ := encode_ok s hpre.1 hpre.2
    rw [hok] at he
    exact Except.noConfusion he
  · intro hpre
    cases hs : shape10 s with
    | false => exact ⟨_, encode_error_nomatch s hs⟩
    | true =>
      have hs' := hs
      simp [shape10, List.all_eq_true] at hs'
      rcases hs' with ⟨h10, hall⟩ | ⟨⟨h11, hd10⟩, hnl⟩
      · exact absurd ⟨h10, hall⟩ hpre
      · refine ⟨_, encode_error_newline s h11 hd10 ?_⟩
        rw [List.getD_eq_getElem?_getD]
        exact hnl

/-- C6 counterexample: a wrong-length violation and a non-digit-character
violation of `encode`'s precondition produce the identical reason string,
so the reason does not distinguish the two kinds of violation. -/
theorem C6_counterexample :
    encode "123456789" = Except.error "Base number must be exactly 10 digits" ∧
    encode "12345678AB" = Except.error "Base number must be exactly 10 digits" :=
  ⟨rfl, rfl⟩

/-- C6 (amended): MalformedInput is raised only by `_calculate_check_digit`
and `encode`, exactly when their 10-digit length/character-class
precondition on the base string is violated (in particular for the 9-digit
input "123456789"); `_calculate_check_digit` reports a wrong-length reason
distinct from its non-digit reason, while `encode`'s reason does not
distinguish the two kinds of violation: the wrong-length input "123456789"
and the non-digit input "12345678AB" fail with the identical reason. -/
theorem C6_malformed_amended :
    (∀ s : String, (∃ e, encode s = Except.error e) ↔
        ¬ (s.length = 10 ∧ ∀ c ∈ s.data, isDigitChar c = true)) ∧
    (∃ e, encode "123456789" = Except.error e) ∧
    (∀ s : String, (∃ e, _calculate_check_digit s = Except.error e) ↔
        ¬ (s.length = 10 ∧ ∀ c ∈ s.data, isDigitChar c = true)) ∧
    (∀ s : String, s.length ≠ 10 →
        _calculate_check_digit s =
          Except.error "VAT number must be 10 digits long (excluding check digit)") ∧
    (∀ s : String, s.length = 10 → ¬ (∀ c ∈ s.data, isDigitChar c = true) →
        _calculate_check_digit s = Except.error "VAT number must contain only digits") ∧
    (encode "123456789" = Except.error "Base number must be exactly 10 digits" ∧
     encode "12345678AB" = Except.error "Base number must be exactly 10 digits") := by
  refine ⟨encode_error_iff, ⟨_, encode_error_nomatch "123456789" rfl⟩, ?_,
    calc_error_length, calc_error_nondigit, rfl, rfl⟩
  intro s
  constructor
  · rintro ⟨e, he⟩ hpre
    obtain ⟨cd, hcd, _⟩ := calc_isOk s hpre.1 hpre.2
    rw [hcd] at he
    exact Except.noConfusion he
  · intro hpre
    by_cases h10 : s.length = 10
    · exact ⟨_, calc_error_nondigit s h10 (fun hall => hpre ⟨h10, hall⟩)⟩
    · exact ⟨_, calc_error_length s h10⟩

/-- Witness for C6 (amended) at concrete violating inputs. -/
theorem C6_malformed_amended_witness :
    _calculate_check_digit "123" =
      Except.error "VAT number must be 10 digits long (excluding check digit)" ∧
    _calculate_check_digit "12345678AB" =
      Except.error "VAT number must contain only digits" ∧
    (∃ e, encode "123456789" = Except.error e) :=
  ⟨C6_malformed_amended.2.2.2.1 "123" (by decide),
   C6_malformed_amended.2.2.2.2.1 "12345678AB" (by decide) (by decide),
   (C6_malformed_amended.1 "123456789").mpr (by decide)⟩

theorem is_valid_eq (s : String) : is_valid s = validCore (normalize s) := by
  unfold is_valid
  by_cases he : s.data.isEmpty = true
  · rw [if_pos he, normalize_nil s (List.isEmpty_iff.mp he)]
    decide
  · rw [if_neg he]

/-- C7: `is_valid` is total, returns false on empty input and on any input
whose normalization is not exactly 11 decimal digits; in particular on the
10-digit, the 12-digit and the letter-containing concrete inputs. -/
theorem C7_invalid_shapes :
    (∀ s : String, s.data.isEmpty = true ∨ shape11 (normalize s) = false →
        is_valid s = false) ∧
    is_valid "1234567890" = false ∧
    is_valid "123456789012" = false ∧
    is_valid "1234567890A" = false := by
  refine ⟨?_, by decide, by decide, by decide⟩
  intro s h
  rcases h with h | h
  · unfold is_valid
    rw [if_pos h]
  · rw [is_valid_eq]
    unfold validCore
    rw [if_neg (by simp [h])]

/-- Witness for C7 at the concrete 10-digit input. -/
theorem C7_invalid_shapes_witness : is_valid "1234567890" = false :=
  C7_invalid_shapes.1 "1234567890" (Or.inr (by decide))

theorem pyIsSpace_pyToUpper (c : Char) : pyIsSpace (pyToUpper c) = pyIsSpace c := by
  unfold pyToUpper
  by_cases h : 97 ≤ c.toNat ∧ c.toNat ≤ 122
  · rw [if_pos h]
    have ht : (Char.ofNat (c.toNat - 32)).toNat = c.toNat - 32 :=
      toNat_ofNat_valid _ (Or.inl (by omega))
    simp only [pyIsSpace, ht]
    rw [decide_eq_decide]
    omega
  · rw [if_neg h]

theorem filter_map_filter (l : List Char) :
    ((l.filter (fun c => !pyIsSpace c)).map pyToUpper).filter (fun c => !pyIsSpace c) =
      (l.map pyToUpper).filter (fun c => !pyIsSpace c) := by
  induction l with
  | nil => rfl
  | cons c t ih =>
    by_cases h : pyIsSpace c = true
    · simp [List.filter_cons, List.map_cons, h, pyIsSpace_pyToUpper, ih]
    · have h' : pyIsSpace c = false := by simpa using h
      simp [List.filter_cons, List.map_cons, h', pyIsSpace_pyToUpper, ih]

theorem normalize_stripWS (s : String) : normalize (stripWS s) = normalize s := by
  unfold normalize stripWS
  exact congrArg String.mk (filter_map_filter s.data)

/-- C8: `is_valid` is invariant under removing every whitespace character
from the input; in particular "0123456789 7" and "01234567897" agree. -/
theorem C8_whitespace :
    (∀ s : String, is_valid (stripWS s) = is_valid s) ∧
    is_valid "0123456789 7" = is_valid "01234567897" := by
  refine ⟨?_, by decide⟩
  intro s
  rw [is_valid_eq, is_valid_eq, normalize_stripWS]

theorem cleaned_eq (s : String) :
    (if s.data = [] then "" else normalize s) = normalize s := by
  by_cases he : s.data = []
  · rw [if_pos he, normalize_nil s he]
  · rw [if_neg he]

/-- C9: decode's `base_number` and `check_digit` fields are populated
exactly when the normalized input is exactly 11 decimal digits, regardless
of whether the checksum then matches. -/
theorem C9_populated_iff (s : String) :
    ((decode s).base_number ≠ none ∧ (decode s).check_digit ≠ none) ↔
      shape11 (normalize s) = true := by
  have hclean := cleaned_eq s
  by_cases hs : shape11 (normalize s) = true
  · have h11 : (normalize s).data.length = 11 := by
      have := hs
      simp [shape11, List.all_eq_true] at this
      exact this.1
    have hnnil : ¬ (normalize s).data = [] := by
      intro hnil
      rw [hnil] at h11
      simp at h11
    cases hm : _calculate_check_digit ⟨(normalize s).data.take 10⟩ with
    | ok c => simp [decode, hclean, hs, hnnil, hm]
    | error e => simp [decode, hclean, hs, hnnil, hm]
  · have hs' : shape11 (normalize s) = false := by simpa using hs
    simp [decode, hclean, hs']

/-- C10: the `valid` field of `decode` agrees with `is_valid` on every
input string. -/
theorem C10_decode_agrees_is_valid (s : String) : (decode s).valid = is_valid s := by
  rw [is_valid_eq]
  have hclean := cleaned_eq s
  by_cases hs : shape11 (normalize s) = true
  · have h11 : (normalize s).data.length = 11 := by
      have := hs
      simp [shape11, List.all_eq_true] at this
      exact this.1
    have hnnil : ¬ (normalize s).data = [] := by
      intro hnil
      rw [hnil] at h11
      simp at h11
    cases hm : _calculate_check_digit ⟨(normalize s).data.take 10⟩ with
    | ok c => simp [decode, validCore, hclean, hs, hnnil, hm]
    | error e => simp [decode, validCore, hclean, hs, hnnil, hm]
  · have hs' : shape11 (normalize s) = false := by simpa using hs
    simp [decode, validCore, hclean, hs']

end PartitaIVA
